import Mathlib

/-!
Verification of the esp32-micropython-ble-example repository.

We give a shallow embedding of the parts of the code the claims are about:

* the heart-rate measurement decoder shared (verbatim) by
  ble_heartratemonitor_central.py and ble_hrm_splitter.py;
* the notify fan-out and downstream connection set of BLEHrmSplitter
  (ble_hrm_splitter.py);
* the descriptor tie-break of BLEABShutter3HidCentral
  (ble_abshutter3_hid_central.py);
* the connection dictionary, notification routing, scan engine and
  synchronous write wrapper of BLEScanner (ble_central.py);
* the scan-done handler of BLEHeartRateMonitorCentral
  (ble_heartratemonitor_central.py).

Python bytes objects are modelled as List Nat (each element a byte value);
indexing that can raise IndexError is modelled with List.get? inside the
Option monad, so a decode that would raise returns none.  Callbacks are
modelled by numeric identifiers; an event handler returns, next to the new
state, the list of callback invocations it performs, each carrying the
arguments the python code passes.  The external ble_advertising decoders
(decode_services, decode_name) are out of scope collaborators; advertisement
events therefore carry their decoded results directly.
-/

namespace HRM

/-- Python values returned by decode_heart_rate_measurement: the function
returns an int, a list of ints, or None depending on the selector. -/
inductive PyVal where
  | vNone : PyVal
  | vInt (n : Nat) : PyVal
  | vList (l : List Nat) : PyVal
deriving DecidableEq, Repr

/-- Selector constants of the source (decode_heart_rate_measurement t). -/
def HRM_HRV : Nat := 1

def HRM_SCS : Nat := 2

def HRM_EES : Nat := 3

def HRM_RRI : Nat := 4

/-- The while loop of the RR-interval branch: starting at idx, read
little-endian uint16 values until idx reaches the end of b.  Reading b at
idx + 1 past the end (odd tail) is an IndexError, modelled as none. -/
def rrLoop (b : List Nat) (idx : Nat) : Option (List Nat) :=
  if idx < b.length then do
    let x ← b.get? idx
    let y ← b.get? (idx + 1)
    let rest ← rrLoop b (idx + 2)
    pure ((x ||| (y <<< 8)) :: rest)
  else
    pure []
termination_by b.length - idx
decreasing_by omega

/-- decode_heart_rate_measurement of ble_heartratemonitor_central.py lines
57-100 (identical in ble_hrm_splitter.py lines 60-103).  Falling off the end
of the python function (selector not in 1..4) returns python None. -/
def decode_heart_rate_measurement (b : List Nat) (t : Nat) : Option PyVal := do
  let flags ← b.get? 0
  let hrv_flag := flags &&& 1
  if t = HRM_HRV then
    if hrv_flag = 0 then
      let hrv ← b.get? 1
      pure (PyVal.vInt hrv)
    else
      let x ← b.get? 1
      let y ← b.get? 2
      pure (PyVal.vInt (x ||| (y <<< 8)))
  else
    let scs_flag := (flags >>> 1) &&& 3
    if t = HRM_SCS then
      pure (PyVal.vInt scs_flag)
    else
      let ees_flag := (flags >>> 3) &&& 1
      if t = HRM_EES then
        if ees_flag = 1 then
          let idx := 2 + hrv_flag
          let x ← b.get? idx
          let y ← b.get? (idx + 1)
          pure (PyVal.vInt (x ||| (y <<< 8)))
        else
          pure PyVal.vNone
      else
        let rri_flag := (flags >>> 4) &&& 1
        if t = HRM_RRI then
          if rri_flag = 1 then
            let idx := 2 + hrv_flag + ees_flag * 2
            let rr ← rrLoop b idx
            pure (PyVal.vList rr)
          else
            pure (PyVal.vList [])
        else
          pure PyVal.vNone

/-- decode_heart_rate_value wrapper of the source. -/
def decode_heart_rate_value (b : List Nat) : Option PyVal :=
  decode_heart_rate_measurement b HRM_HRV

/-- decode_sensor_contact_status wrapper of the source. -/
def decode_sensor_contact_status (b : List Nat) : Option PyVal :=
  decode_heart_rate_measurement b HRM_SCS

/-- decode_energy_expended wrapper of the source. -/
def decode_energy_expended (b : List Nat) : Option PyVal :=
  decode_heart_rate_measurement b HRM_EES

/-- decode_rr_interval wrapper of the source. -/
def decode_rr_interval (b : List Nat) : Option PyVal :=
  decode_heart_rate_measurement b HRM_RRI

/-- Specification-side description of the RR-interval field: the suffix of
the payload from a given offset, read as consecutive little-endian uint16
values. -/
def u16leList : List Nat → List Nat
  | x :: y :: rest => (x ||| (y <<< 8)) :: u16leList rest
  | _ => []

end HRM

namespace Splitter

/-- The BLEHrmSplitter state relevant to the downstream fan-out:
the set of downstream connection handles (python set, modelled as a
duplicate-free list in iteration order) and the server-side value handle
of the registered heart-rate characteristic. -/
structure State where
  connections : List Nat
  handle : Nat
deriving DecidableEq, Repr

/-- One server-side gatts_notify call issued by the splitter. -/
structure NotifyCall where
  conn_handle : Nat
  attr_handle : Nat
  payload : List Nat
deriving DecidableEq, Repr

/-- The IRQ_GATTC_NOTIFY handler of BLEHrmSplitter (ble_hrm_splitter.py
lines 287-296): for every handle in the connections set, issue
gatts_notify with the raw notify payload.  The decode calls after the loop
feed only a print and do not change the forwarded bytes. -/
def irq_gattc_notify (s : State) (notify_data : List Nat) : List NotifyCall :=
  s.connections.map (fun c => { conn_handle := c, attr_handle := s.handle, payload := notify_data })

/-- The IRQ_CENTRAL_CONNECT handler (lines 158-160): add the new
downstream handle to the set. -/
def irq_central_connect (s : State) (ch : Nat) : State :=
  { s with connections := if ch ∈ s.connections then s.connections else s.connections ++ [ch] }

/-- The IRQ_CENTRAL_DISCONNECT handler (lines 162-166): remove the
downstream handle from the set (advertising restart has no effect on the
modelled state). -/
def irq_central_disconnect (s : State) (ch : Nat) : State :=
  { s with connections := s.connections.erase ch }

end Splitter

namespace Hid

/-- UUID of the client characteristic configuration descriptor. -/
def CCC_UUID : Nat := 0x2902

/-- The BLEABShutter3HidCentral state relevant to descriptor association.
The two report value handles are plain numbers: descriptor discovery only
starts once both are resolved (ble_abshutter3_hid_central.py line 164). -/
structure State where
  conn_handle : Option Nat
  report1_handle : Nat
  report2_handle : Nat
  report1_dsc_handle : Option Nat
  report2_dsc_handle : Option Nat
deriving DecidableEq, Repr

/-- Python truthiness of an optional handle (None and 0 are falsy). -/
def truthy : Option Nat → Bool
  | none => false
  | some n => n != 0

/-- The IRQ_GATTC_DESCRIPTOR_RESULT handler (ble_abshutter3_hid_central.py
lines 168-175). -/
def irq_gattc_descriptor_result (s : State) (ch dsc_handle uuid : Nat) : State :=
  if s.conn_handle = some ch ∧ uuid = CCC_UUID then
    if truthy s.report1_dsc_handle = false ∧
        s.report1_handle < dsc_handle ∧ dsc_handle < s.report2_handle then
      { s with report1_dsc_handle := some dsc_handle }
    else if truthy s.report2_dsc_handle = false ∧ s.report2_handle < dsc_handle then
      { s with report2_dsc_handle := some dsc_handle }
    else
      s
  else
    s

end Hid

namespace Central

/-- Pointwise update of a map with Nat keys. -/
def upd {α : Type} (f : Nat → Option α) (k : Nat) (v : Option α) : Nat → Option α :=
  fun x => if x = k then v else f x

/-- One entry of a per-connection handles dictionary: python creates it as
an empty dict at discovery time; register_notify later stores the
notify_callback key (callbacks are modelled by numeric identifiers). -/
structure HandleEntry where
  notify_callback : Option Nat
deriving DecidableEq, Repr

/-- One value of the BLEScanner connection dictionary: the connection
handle and the handles dictionary populated during characteristic and
descriptor discovery (the services list, used only for the connect
callback payload, is not needed by the claims and is omitted). -/
structure Connection where
  handle : Nat
  handles : Nat → Option HandleEntry

/-- The BLEScanner state touched by connection bookkeeping and
notification routing (ble_central.py).  service_gattcs models the key set
of the gattcs dictionary of the service currently being discovered, which
line 201 consults before recording a descriptor. -/
structure ScanState where
  conn_dict : Nat → Option Connection
  conn_handle : Option Nat
  conn_addr_type : Option Nat
  conn_address : Option (List Nat)
  service_gattcs : Nat → Bool

/-- One notification callback invocation performed by the IRQ handler,
with the arguments the python code passes. -/
structure Invocation where
  cb : Nat
  conn_handle : Nat
  value_handle : Nat
  payload : List Nat
deriving DecidableEq, Repr

/-- BLEScanner.register_notify (ble_central.py lines 359-360):
conn_dict[conn_handle] and its handles[value_handle] are looked up (a
missing key raises KeyError, modelled as Except.error) and the
notify_callback key of the entry is then set, overwriting any prior one. -/
def register_notify (s : ScanState) (ch vh cb : Nat) : Except Unit ScanState :=
  match s.conn_dict ch with
  | none => .error ()
  | some conn =>
    match conn.handles vh with
    | none => .error ()
    | some _ =>
      .ok { s with conn_dict := upd s.conn_dict ch (some { conn with
        handles := upd conn.handles vh (some { notify_callback := some cb }) }) }

/-- The events of the modelled alphabet: the IRQ events of ble_central.py
that touch the connection dictionary or dispatch notifications, plus the
register_notify method call. -/
inductive Event where
  | peripheral_connect (ch addr_type : Nat) (addr : List Nat)
  | peripheral_disconnect (ch : Nat)
  | char_result (ch def_handle value_handle : Nat)
  | desc_result (ch dsc_handle : Nat)
  | notify (ch vh : Nat) (payload : List Nat)
  | register (ch vh cb : Nat)

/-- One step of the BLEScanner IRQ handler (ble_central.py lines 97-298)
over the modelled alphabet, returning the new state and the notification
callback invocations performed during the step.

* peripheral_connect (lines 132-139): when the event address matches the
  requested one, cache the handle and create a fresh connection entry.
* peripheral_disconnect (lines 140-147): reset the cached handle fields
  when they refer to this handle, then delete the dictionary entry
  (the python code first assigns None, then deletes the key).
* char_result (lines 169-178): for the active connection, record an empty
  handles entry under both the declaration and the value handle and both
  keys in the current service gattcs.
* desc_result (lines 196-203): for the active connection, record an empty
  handles entry under the descriptor handle unless the current service
  gattcs already holds that key.
* notify (lines 240-249): look up conn_dict[ch].handles[vh].notify_callback;
  any missing key is caught by the bare except and the event is dropped.
* register: the register_notify call; a KeyError leaves the state
  unchanged (the exception propagates to the caller). -/
def step (s : ScanState) (e : Event) : ScanState × List Invocation :=
  match e with
  | .peripheral_connect ch at_ addr =>
    if s.conn_addr_type = some at_ ∧ s.conn_address = some addr then
      ({ s with conn_handle := some ch,
                conn_dict := upd s.conn_dict ch (some { handle := ch, handles := fun _ => none }) },
       [])
    else
      (s, [])
  | .peripheral_disconnect ch =>
    let s1 := if s.conn_handle = some ch
      then { s with conn_handle := none } else s
    ({ s1 with conn_dict := upd s1.conn_dict ch none }, [])
  | .char_result ch dh vh =>
    if s.conn_handle = some ch then
      match s.conn_dict ch with
      | some conn =>
        ({ s with
            conn_dict := upd s.conn_dict ch (some { conn with
              handles := upd (upd conn.handles dh (some { notify_callback := none }))
                vh (some { notify_callback := none }) }),
            service_gattcs := fun h => h = dh ∨ h = vh ∨ s.service_gattcs h }, [])
      | none => (s, [])
    else
      (s, [])
  | .desc_result ch dh =>
    if s.conn_handle = some ch then
      if s.service_gattcs dh = false then
        match s.conn_dict ch with
        | some conn =>
          ({ s with
              conn_dict := upd s.conn_dict ch (some { conn with
                handles := upd conn.handles dh (some { notify_callback := none }) }),
              service_gattcs := fun h => h = dh ∨ s.service_gattcs h }, [])
        | none => (s, [])
      else
        (s, [])
    else
      (s, [])
  | .notify ch vh payload =>
    match s.conn_dict ch with
    | none => (s, [])
    | some conn =>
      match conn.handles vh with
      | none => (s, [])
      | some entry =>
        match entry.notify_callback with
        | none => (s, [])
        | some cb => (s, [{ cb := cb, conn_handle := ch, value_handle := vh, payload := payload }])
  | .register ch vh cb =>
    match register_notify s ch vh cb with
    | .ok s1 => (s1, [])
    | .error _ => (s, [])

/-- Run a list of events from a state, collecting all invocations. -/
def run (s : ScanState) (es : List Event) : ScanState × List Invocation :=
  match es with
  | [] => (s, [])
  | e :: rest =>
    let p := step s e
    let q := run p.1 rest
    (q.1, p.2 ++ q.2)

/-- Whether an event is a peripheral-connect for the given handle: the
only event of the alphabet that can recreate a connection entry. -/
def connectsTo (ch : Nat) : Event → Prop
  | .peripheral_connect ch1 _ _ => ch1 = ch
  | _ => False

/-- The invariant behind claim C5: handle ch has no dictionary entry and
is not the cached active handle. -/
def Gone (ch : Nat) (s : ScanState) : Prop :=
  s.conn_dict ch = none ∧ s.conn_handle ≠ some ch

/-- State of the synchronous write wrapper (ble_central.py
gattc_write_sync, lines 377-391): whether self.write_callback is still
registered, and the result captured by the on_write closure. -/
structure WriteState where
  write_callback : Bool
  result : Option Nat
deriving DecidableEq, Repr

/-- The IRQ_GATTC_WRITE_DONE handler restricted to the wrapper state
(lines 230-239): when a matching write-done event arrives while the
callback is registered, the closure stores the status and the callback is
cleared. -/
def write_done_irq (s : WriteState) (status : Nat) : WriteState :=
  if s.write_callback then { write_callback := false, result := some status } else s

/-- The polling loop of gattc_write_sync: while the callback is registered
and fewer than 10 polls have happened, sleep 50 ms and re-check.  The
schedule argument is the environment: schedule k = some status means a
matching write-done IRQ fires during sleep number k.  Returns the final
wrapper state and the number of sleeps performed. -/
def write_poll_loop (schedule : Nat → Option Nat) (s : WriteState) (counter : Nat) :
    WriteState × Nat :=
  if s.write_callback = true ∧ counter < 10 then
    let s1 := match schedule counter with
      | some status => write_done_irq s status
      | none => s
    write_poll_loop schedule s1 (counter + 1)
  else
    (s, counter)
termination_by 10 - counter
decreasing_by omega

/-- BLEScanner.gattc_write_sync for a given IRQ schedule: with mode 1 it
registers the callback, issues the write and polls; with any other mode it
issues the write and returns python None at once (no loop, no callback).
Returns the python return value and the final wrapper state. -/
def gattc_write_sync (schedule : Nat → Option Nat) (mode : Nat) :
    Option Nat × WriteState :=
  if mode = 1 then
    let s1 := (write_poll_loop schedule { write_callback := true, result := none } 0).1
    (s1.result, s1)
  else
    (none, { write_callback := false, result := none })

end Central

namespace Scanner

/-- One recorded scan result of BLEScanner (ble_central.py line 126):
the tuple (addr_type, addr_bytes, adv_type, name). -/
structure DeviceRec where
  addr_type : Nat
  addr : List Nat
  adv_type : Nat
  name : List Nat
deriving DecidableEq, Repr

/-- Python dict assignment on an insertion-ordered dictionary: an existing
key keeps its position and gets the new value, a new key is appended. -/
def pyDictSet (d : List ((Nat × List Nat) × DeviceRec)) (k : Nat × List Nat)
    (v : DeviceRec) : List ((Nat × List Nat) × DeviceRec) :=
  match d with
  | [] => [(k, v)]
  | (k0, v0) :: rest => if k0 = k then (k, v) :: rest else (k0, v0) :: pyDictSet rest k v

/-- One IRQ_SCAN_RESULT event.  The services and name fields carry the
results of the external ble_advertising decoders applied to adv_data
(name is None when the advertisement has no name record). -/
structure AdvEvent where
  addr_type : Nat
  addr : List Nat
  adv_type : Nat
  services : List Nat
  name : Option (List Nat)
deriving DecidableEq, Repr

/-- The name recorded when decode_name yields nothing (python source falls
back to the one-character string with byte 0x3F). -/
def qmark : List Nat := [0x3F]

/-- The scan-related state of BLEScanner (ble_central.py _reset and scan
fields). -/
structure ScannerState where
  device_dict : List ((Nat × List Nat) × DeviceRec)
  scan_filter_adv_types : Option (List Nat)
  scan_filter_address : Option (List Nat)
  scan_filter_uuid : Option Nat
  scan_list_all : Bool
  scan_callback : Option Nat
  is_busy : Bool
deriving DecidableEq, Repr

/-- The filter test of the IRQ_SCAN_RESULT handler (ble_central.py lines
117-119): each filter component is either unset (None) or must match.
The address filter compares the hex string of the address, equivalent to
comparing the address bytes. -/
def scanMatches (s : ScannerState) (e : AdvEvent) : Bool :=
  (match s.scan_filter_adv_types with
    | none => true
    | some ts => ts.contains e.adv_type) &&
  (match s.scan_filter_address with
    | none => true
    | some a => e.addr == a) &&
  (match s.scan_filter_uuid with
    | none => true
    | some u => e.services.contains u)

/-- The dictionary key bytes([addr_type]) + addr_bytes of line 124. -/
def advKey (e : AdvEvent) : Nat × List Nat := (e.addr_type, e.addr)

/-- The recorded value of line 126. -/
def advRecord (e : AdvEvent) : DeviceRec :=
  { addr_type := e.addr_type, addr := e.addr, adv_type := e.adv_type,
    name := e.name.getD qmark }

/-- The IRQ_SCAN_RESULT handler (ble_central.py lines 113-128): on a
filter match, record the device; the Bool result tells whether the handler
requested a manual scan stop (gap_scan(None)), which it does exactly when
scan_list_all is false. -/
def irq_scan_result (s : ScannerState) (e : AdvEvent) : ScannerState × Bool :=
  if scanMatches s e then
    ({ s with device_dict := pyDictSet s.device_dict (advKey e) (advRecord e) },
      !s.scan_list_all)
  else
    (s, false)

/-- One scan completion callback invocation with its devices argument. -/
structure ScanInvocation where
  cb : Nat
  devices : List DeviceRec
deriving DecidableEq, Repr

/-- BLEScanner.complete_scan (ble_central.py lines 315-326), run on
IRQ_SCAN_DONE: invoke the stored callback, if any, with the device list,
then clear the callback (the python code clears it right after the call)
and reset the filters and the busy flag. -/
def complete_scan (s : ScannerState) : ScannerState × List ScanInvocation :=
  match s.scan_callback with
  | some cb =>
    ({ s with scan_callback := none, scan_filter_adv_types := none,
              scan_filter_address := none, scan_filter_uuid := none,
              scan_list_all := false, is_busy := false },
      [{ cb := cb, devices := s.device_dict.map Prod.snd }])
  | none =>
    ({ s with scan_filter_adv_types := none, scan_filter_address := none,
              scan_filter_uuid := none, scan_list_all := false, is_busy := false },
      [])

/-- The arguments of BLEScanner.scan. -/
structure ScanArgs where
  adv_types : Option (List Nat)
  address : Option (List Nat)
  service_uuid : Option Nat
  list_all : Bool
  callback : Option Nat
deriving DecidableEq, Repr

/-- A radio-stack command issued by the engine. -/
inductive Cmd where
  | gapScan (duration window interval : Nat)
deriving DecidableEq, Repr

/-- BLEScanner.scan (ble_central.py lines 305-313): sets the busy flag,
clears the device dictionary, installs the filter and callback, and issues
gap_scan(2000, 30000, 30000).  The python method performs no busy check
and returns None. -/
def scan (s : ScannerState) (a : ScanArgs) : ScannerState × List Cmd :=
  ({ s with is_busy := true, device_dict := [],
            scan_filter_adv_types := a.adv_types, scan_filter_address := a.address,
            scan_filter_uuid := a.service_uuid, scan_list_all := a.list_all,
            scan_callback := a.callback },
    [Cmd.gapScan 2000 30000 30000])

/-- Process every advertisement event of the stream (the collect-all run:
with list_all set no stop is requested, so the whole stream is seen). -/
def runCollect (s : ScannerState) (es : List AdvEvent) : ScannerState :=
  match es with
  | [] => s
  | e :: rest => runCollect (irq_scan_result s e).1 rest

/-- Process advertisement events until the handler requests a scan stop
(the stop-on-first-match run: with a deterministic event order no event is
delivered after the stop request). -/
def runStop (s : ScannerState) (es : List AdvEvent) : ScannerState :=
  match es with
  | [] => s
  | e :: rest =>
    let p := irq_scan_result s e
    if p.2 then p.1 else runStop p.1 rest

end Scanner

namespace Splitter

/-- Python truthiness of an optional bytes value (None and empty are
falsy). -/
def addrTruthy : Option (List Nat) → Bool
  | none => false
  | some l => !l.isEmpty

/-- The scan-related state of BLEHrmSplitter. -/
structure ScanState where
  scan_callback : Option Nat
  addr_type : Option Nat
  addr : Option (List Nat)
  name : List Nat
deriving DecidableEq, Repr

/-- The IRQ_SCAN_DONE handler of BLEHrmSplitter (ble_hrm_splitter.py lines
181-190): the callback reference is copied and cleared before the call;
the callback receives the found address triple or (None, None, None). -/
def irq_scan_done (s : ScanState) :
    ScanState × List (Nat × (Option Nat × Option (List Nat) × Option (List Nat))) :=
  match s.scan_callback with
  | none => (s, [])
  | some cb =>
    if addrTruthy s.addr then
      ({ s with scan_callback := none }, [(cb, (s.addr_type, s.addr, some s.name))])
    else
      ({ s with scan_callback := none }, [(cb, (none, none, none))])

end Splitter

namespace HrmC

/-- The scan-related state of BLEHeartRateMonitorCentral. -/
structure ScanState where
  scan_callback : Option Nat
  addr_type : Option Nat
  addr : Option (List Nat)
  name : List Nat
deriving DecidableEq, Repr

/-- The IRQ_SCAN_DONE handler of BLEHeartRateMonitorCentral
(ble_heartratemonitor_central.py lines 185-194): on the found path the
callback is invoked and then cleared; on the timeout path the callback is
invoked with (None, None, None) and NOT cleared. -/
def irq_scan_done (s : ScanState) :
    ScanState × List (Nat × (Option Nat × Option (List Nat) × Option (List Nat))) :=
  match s.scan_callback with
  | none => (s, [])
  | some cb =>
    if Splitter.addrTruthy s.addr then
      ({ s with scan_callback := none }, [(cb, (s.addr_type, s.addr, some s.name))])
    else
      (s, [(cb, (none, none, none))])

end HrmC

namespace HRM

lemma rrLoop_eq_u16leList (b : List Nat) (idx : Nat)
    (h : (b.length - idx) % 2 = 0) :
    rrLoop b idx = some (u16leList (b.drop idx)) := by
  rw [rrLoop]
  by_cases hlt : idx < b.length
  · have h1 : idx + 1 < b.length := by omega
    have hx : b.get? idx = some (b.get ⟨idx, hlt⟩) := List.get?_eq_get hlt
    have hy : b.get? (idx + 1) = some (b.get ⟨idx + 1, h1⟩) := List.get?_eq_get h1
    have ih : rrLoop b (idx + 2) = some (u16leList (b.drop (idx + 2))) :=
      rrLoop_eq_u16leList b (idx + 2) (by omega)
    have hdrop : b.drop idx = b.get ⟨idx, hlt⟩ :: b.get ⟨idx + 1, h1⟩ :: b.drop (idx + 2) := by
      rw [List.drop_eq_get_cons hlt]
      congr 1
      rw [List.drop_eq_get_cons h1]
    simp only [if_pos hlt, hx, hy, ih, Option.bind_eq_bind, Option.some_bind, hdrop, u16leList]
    rfl
  · have : b.drop idx = [] := List.drop_eq_nil_of_le (by omega)
    simp [if_neg hlt, this, u16leList]
termination_by b.length - idx
decreasing_by omega

/-- Claim C2: for a payload of sufficient length, decode_heart_rate_value
returns byte 1 when bit 0 of the flags byte is 0 (uint8 format) and
byte1 OR (byte2 shifted left 8) when bit 0 is 1 (little-endian uint16);
payload [0x00, 72] decodes to 72 bpm and [0x09, 0x4B, 0x00, 0x0A, 0x00]
decodes to 75 bpm. -/
theorem C2_heart_rate_value_format (b : List Nat) (f : Nat)
    (hf : b.get? 0 = some f) :
    (f &&& 1 = 0 → ∀ v, b.get? 1 = some v →
      decode_heart_rate_value b = some (PyVal.vInt v)) ∧
    (f &&& 1 = 1 → ∀ v w, b.get? 1 = some v → b.get? 2 = some w →
      decode_heart_rate_value b = some (PyVal.vInt (v ||| (w <<< 8)))) ∧
    decode_heart_rate_value [0x00, 72] = some (PyVal.vInt 72) ∧
    decode_heart_rate_value [0x09, 0x4B, 0x00, 0x0A, 0x00] = some (PyVal.vInt 75) := by
  refine ⟨?_, ?_, by decide, by decide⟩
  · intro h0 v hv
    rw [Nat.and_one_is_mod] at h0
    simp only [List.get?_eq_getElem?] at hf hv
    simp [decode_heart_rate_value, decode_heart_rate_measurement, HRM_HRV, hf, h0, hv]
  · intro h1 v w hv hw
    rw [Nat.and_one_is_mod] at h1
    simp only [List.get?_eq_getElem?] at hf hv hw
    simp [decode_heart_rate_value, decode_heart_rate_measurement, HRM_HRV, hf, h1, hv, hw]

/-- Witness for C2 at the concrete uint8 payload [0x00, 72]. -/
theorem C2_heart_rate_value_format_witness :
    decode_heart_rate_value [0x00, 72] = some (PyVal.vInt 72) :=
  (C2_heart_rate_value_format [0x00, 72] 0 (by decide)).1 (by decide) 72 (by decide)

/-- Claim C3: decode_energy_expended returns the little-endian uint16 at
offset 2 + hrv_flag when flags bit 3 is set, and python None when bit 3 is
clear; decode_rr_interval returns the little-endian uint16 values from
offset 2 + hrv_flag + 2 * ees_flag through the end of the payload when
flags bit 4 is set, and the empty list when bit 4 is clear; in particular
[0x09, 0x4B, 0x00, 0x0A, 0x00] yields energy 10 and [0x10, 72] followed by
the bytes of 0x0100 and 0x0200 yields RR list [256, 512]. -/
theorem C3_energy_and_rr_fields (b : List Nat) (f : Nat)
    (hf : b.get? 0 = some f) :
    ((f >>> 3) &&& 1 = 1 → ∀ x y,
      b.get? (2 + (f &&& 1)) = some x → b.get? (2 + (f &&& 1) + 1) = some y →
      decode_energy_expended b = some (PyVal.vInt (x ||| (y <<< 8)))) ∧
    ((f >>> 3) &&& 1 = 0 → decode_energy_expended b = some PyVal.vNone) ∧
    ((f >>> 4) &&& 1 = 1 →
      (b.length - (2 + (f &&& 1) + ((f >>> 3) &&& 1) * 2)) % 2 = 0 →
      decode_rr_interval b =
        some (PyVal.vList (u16leList (b.drop (2 + (f &&& 1) + ((f >>> 3) &&& 1) * 2))))) ∧
    ((f >>> 4) &&& 1 = 0 → decode_rr_interval b = some (PyVal.vList [])) ∧
    decode_energy_expended [0x09, 0x4B, 0x00, 0x0A, 0x00] = some (PyVal.vInt 10) ∧
    decode_rr_interval [0x10, 72, 0x00, 0x01, 0x00, 0x02] = some (PyVal.vList [256, 512]) := by
  refine ⟨?_, ?_, ?_, ?_, by decide, ?_⟩
  · intro h3 x y hx hy
    rw [Nat.and_one_is_mod] at h3
    simp only [Nat.and_one_is_mod] at hx hy
    simp only [List.get?_eq_getElem?] at hf hx hy
    simp [decode_energy_expended, decode_heart_rate_measurement,
      HRM_HRV, HRM_SCS, HRM_EES, hf, h3, hx, hy]
  · intro h3
    rw [Nat.and_one_is_mod] at h3
    simp only [List.get?_eq_getElem?] at hf
    simp [decode_energy_expended, decode_heart_rate_measurement,
      HRM_HRV, HRM_SCS, HRM_EES, hf, h3]
  · intro h4 heven
    have hrr := rrLoop_eq_u16leList b (2 + (f &&& 1) + ((f >>> 3) &&& 1) * 2) heven
    rw [Nat.and_one_is_mod] at h4
    simp only [Nat.and_one_is_mod] at hrr
    simp only [List.get?_eq_getElem?] at hf
    simp [decode_rr_interval, decode_heart_rate_measurement,
      HRM_HRV, HRM_SCS, HRM_EES, HRM_RRI, hf, h4, hrr]
  · intro h4
    rw [Nat.and_one_is_mod] at h4
    simp only [List.get?_eq_getElem?] at hf
    simp [decode_rr_interval, decode_heart_rate_measurement,
      HRM_HRV, HRM_SCS, HRM_EES, HRM_RRI, hf, h4]
  · have hrr := rrLoop_eq_u16leList [0x10, 72, 0x00, 0x01, 0x00, 0x02] 2 (by decide)
    simp [decode_rr_interval, decode_heart_rate_measurement,
      HRM_HRV, HRM_SCS, HRM_EES, HRM_RRI, hrr, u16leList]

/-- Witness for C3 at the concrete payload [0x09, 0x4B, 0x00, 0x0A, 0x00]. -/
theorem C3_energy_and_rr_fields_witness :
    decode_energy_expended [0x09, 0x4B, 0x00, 0x0A, 0x00] = some (PyVal.vInt 10) :=
  (C3_energy_and_rr_fields [0x09, 0x4B, 0x00, 0x0A, 0x00] 0x09 (by decide)).1
    (by decide) 0x0A 0x00 (by decide) (by decide)

end HRM

namespace Splitter

/-- Claim C1: a notify event with the downstream set holding N handles
issues exactly N server-side notify calls, one per handle in the set and
in set order, each carrying the received payload unchanged; with handles
{1, 2, 3} exactly three calls occur, and after handle 2 disconnects the
next notify produces exactly two. -/
theorem C1_relay_fanout (s : State) (p : List Nat) :
    ((irq_gattc_notify s p).map (fun call => call.conn_handle)) = s.connections ∧
    (irq_gattc_notify s p).length = s.connections.length ∧
    (∀ call ∈ irq_gattc_notify s p, call.payload = p ∧ call.attr_handle = s.handle) ∧
    irq_gattc_notify (State.mk [1, 2, 3] 9) p =
      [NotifyCall.mk 1 9 p, NotifyCall.mk 2 9 p, NotifyCall.mk 3 9 p] ∧
    irq_gattc_notify (irq_central_disconnect (State.mk [1, 2, 3] 9) 2) p =
      [NotifyCall.mk 1 9 p, NotifyCall.mk 3 9 p] := by
  refine ⟨?_, ?_, ?_, ?_, ?_⟩
  · simp only [irq_gattc_notify, List.map_map]
    exact List.map_id s.connections
  · simp [irq_gattc_notify]
  · intro call hc
    simp only [irq_gattc_notify, List.mem_map] at hc
    obtain ⟨c, _, rfl⟩ := hc
    exact ⟨rfl, rfl⟩
  · rfl
  · rfl

end Splitter

namespace Hid

/-- Claim C4: with both report value handles resolved (h1 < h2), a CCC
descriptor at handle d with h1 < d < h2 is bound (first come) as the first
characteristic descriptor, and one with d > h2 as the second; with value
handles 10 and 20, a descriptor at 15 goes to the characteristic at 10 and
one at 25 goes to the characteristic at 20. -/
theorem C4_descriptor_tiebreak (s : State) (ch d uuid : Nat)
    (hc : s.conn_handle = some ch) (hu : uuid = CCC_UUID) :
    (truthy s.report1_dsc_handle = false → s.report1_handle < d → d < s.report2_handle →
      (irq_gattc_descriptor_result s ch d uuid).report1_dsc_handle = some d ∧
      (irq_gattc_descriptor_result s ch d uuid).report2_dsc_handle = s.report2_dsc_handle) ∧
    (truthy s.report2_dsc_handle = false → s.report2_handle < d →
      (irq_gattc_descriptor_result s ch d uuid).report2_dsc_handle = some d ∧
      (irq_gattc_descriptor_result s ch d uuid).report1_dsc_handle = s.report1_dsc_handle) ∧
    (irq_gattc_descriptor_result (State.mk (some 0) 10 20 none none) 0 15 CCC_UUID).report1_dsc_handle
      = some 15 ∧
    (irq_gattc_descriptor_result (State.mk (some 0) 10 20 none none) 0 25 CCC_UUID).report2_dsc_handle
      = some 25 := by
  refine ⟨?_, ?_, by decide, by decide⟩
  · intro h1 hlo hhi
    simp [irq_gattc_descriptor_result, hc, hu, h1, hlo, hhi]
  · intro h2 hlo
    have hnot : ¬ (truthy s.report1_dsc_handle = false ∧
        s.report1_handle < d ∧ d < s.report2_handle) := by
      rintro ⟨-, -, hdd⟩
      omega
    simp [irq_gattc_descriptor_result, hc, hu, hnot, h2, hlo]

/-- Witness for C4 at the concrete state of the claim (value handles 10
and 20, descriptor handle 15). -/
theorem C4_descriptor_tiebreak_witness :
    (irq_gattc_descriptor_result (State.mk (some 0) 10 20 none none) 0 15 CCC_UUID).report1_dsc_handle
      = some 15 :=
  ((C4_descriptor_tiebreak (State.mk (some 0) 10 20 none none) 0 15 CCC_UUID
    (by decide) rfl).1 (by decide) (by decide) (by decide)).1

end Hid

namespace Central

lemma step_preserves_Gone (s : ScanState) (e : Event) (ch : Nat)
    (hg : Gone ch s) (he : ¬ connectsTo ch e) :
    Gone ch (step s e).1 ∧
    (∀ inv ∈ (step s e).2, inv.conn_handle ≠ ch) := by
  obtain ⟨hd, hh⟩ := hg
  cases e with
  | peripheral_connect ch1 at1 addr1 =>
    have hne : ch1 ≠ ch := fun h => he (by simpa [connectsTo] using h)
    by_cases hm : s.conn_addr_type = some at1 ∧ s.conn_address = some addr1
    · refine ⟨⟨?_, ?_⟩, by simp [step, hm]⟩
      · simp [step, hm, upd, hne, Ne.symm hne, hd]
      · simp only [step, hm, if_pos]
        intro hcontra
        exact hne (by simpa using hcontra)
    · exact ⟨⟨by simp [step, hm, hd], by simp [step, hm, hh]⟩, by simp [step, hm]⟩
  | peripheral_disconnect ch1 =>
    constructor
    · constructor
      · by_cases hch : ch1 = ch
        · simp [step, upd, hch]
        · by_cases hc : s.conn_handle = some ch1 <;>
            simp [step, upd, hc, Ne.symm hch, hd]
      · by_cases hc : s.conn_handle = some ch1 <;> simp [step, hc, hh]
    · simp [step]
  | char_result ch1 dh vh =>
    have hne : s.conn_handle = some ch1 → ch1 ≠ ch := by
      intro hc hcontra
      exact hh (hcontra ▸ hc)
    constructor
    · by_cases hc : s.conn_handle = some ch1
      · cases hcd : s.conn_dict ch1 with
        | none => simp [step, hc, hcd, Gone, hd, hne hc]
        | some conn =>
          refine ⟨?_, ?_⟩
          · simp [step, hc, hcd, upd, Ne.symm (hne hc), hd]
          · simp [step, hc, hcd, hne hc]
      · simp [step, hc, Gone, hd, hh]
    · by_cases hc : s.conn_handle = some ch1
      · cases hcd : s.conn_dict ch1 <;> simp [step, hc, hcd]
      · simp [step, hc]
  | desc_result ch1 dh =>
    have hne : s.conn_handle = some ch1 → ch1 ≠ ch := by
      intro hc hcontra
      exact hh (hcontra ▸ hc)
    constructor
    · by_cases hc : s.conn_handle = some ch1
      · by_cases hg1 : s.service_gattcs dh = false
        · cases hcd : s.conn_dict ch1 with
          | none => simp [step, hc, hg1, hcd, Gone, hd, hne hc]
          | some conn =>
            refine ⟨?_, ?_⟩
            · simp [step, hc, hg1, hcd, upd, Ne.symm (hne hc), hd]
            · simp [step, hc, hg1, hcd, hne hc]
        · simp [step, hc, hg1, Gone, hd, hne hc]
      · simp [step, hc, Gone, hd, hh]
    · by_cases hc : s.conn_handle = some ch1
      · by_cases hg1 : s.service_gattcs dh = false
        · cases hcd : s.conn_dict ch1 <;> simp [step, hc, hg1, hcd]
        · simp [step, hc, hg1]
      · simp [step, hc]
  | notify ch1 vh payload =>
    constructor
    · cases hcd : s.conn_dict ch1 with
      | none => simp [step, hcd, Gone, hd, hh]
      | some conn =>
        cases hhe : conn.handles vh with
        | none => simp [step, hcd, hhe, Gone, hd, hh]
        | some entry =>
          cases hcb : entry.notify_callback with
          | none => simp [step, hcd, hhe, hcb, Gone, hd, hh]
          | some cb => simp [step, hcd, hhe, hcb, Gone, hd, hh]
    · intro inv hinv
      simp only [step] at hinv
      cases hcd : s.conn_dict ch1 with
      | none => simp [hcd] at hinv
      | some conn =>
        cases hhe : conn.handles vh with
        | none => simp [hcd, hhe] at hinv
        | some entry =>
          cases hcb : entry.notify_callback with
          | none => simp [hcd, hhe, hcb] at hinv
          | some cb =>
            simp only [hcd, hhe, hcb, List.mem_singleton] at hinv
            subst hinv
            intro hcontra
            simp only at hcontra
            subst hcontra
            simp [hd] at hcd
  | register ch1 vh cb =>
    constructor
    · cases hr : register_notify s ch1 vh cb with
      | error e0 => simp [step, hr, Gone, hd, hh]
      | ok s1 =>
        have hne : ch1 ≠ ch := by
          intro hcontra
          subst hcontra
          simp [register_notify, hd] at hr
        simp only [register_notify] at hr
        cases hcd : s.conn_dict ch1 with
        | none => simp [hcd] at hr
        | some conn =>
          cases hhe : conn.handles vh with
          | none => simp [hcd, hhe] at hr
          | some entry =>
            simp only [hcd, hhe] at hr
            cases hr
            exact ⟨by simp [step, register_notify, hcd, hhe, upd, Ne.symm hne, hd], by
              simp [step, register_notify, hcd, hhe, hh]⟩
    · cases hr : register_notify s ch1 vh cb <;> simp [step, hr]

lemma run_preserves_Gone (ch : Nat) (es : List Event) :
    ∀ s : ScanState, Gone ch s → (∀ e ∈ es, ¬ connectsTo ch e) →
    Gone ch (run s es).1 ∧ (∀ inv ∈ (run s es).2, inv.conn_handle ≠ ch) := by
  induction es with
  | nil => exact fun s hg _ => ⟨hg, by simp [run]⟩
  | cons e rest ih =>
    intro s hg hne
    have h1 := step_preserves_Gone s e ch hg (hne e (by simp))
    have h2 := ih (step s e).1 h1.1 (fun e1 he1 => hne e1 (by simp [he1]))
    refine ⟨h2.1, ?_⟩
    intro inv hinv
    simp only [run, List.mem_append] at hinv
    cases hinv with
    | inl h => exact h1.2 inv h
    | inr h => exact h2.2 inv h

/-- Claim C5: the peripheral-disconnect handler deletes the per-connection
entry (cached handles and notification bindings) and resets the cached
active-connection fields when they refer to the disconnected handle; after
that, as long as no peripheral-connect event re-assigns the handle, no
notification callback is invoked for any notify event on it; and a notify
event whose connection handle or value handle has no registered binding is
silently dropped (no invocation, state unchanged, no error). -/
theorem C5_disconnect_clears_and_drops (s : ScanState) (ch : Nat) :
    ((step s (Event.peripheral_disconnect ch)).1.conn_dict ch = none ∧
      (s.conn_handle = some ch →
        (step s (Event.peripheral_disconnect ch)).1.conn_handle = none) ∧
      (step s (Event.peripheral_disconnect ch)).2 = []) ∧
    (∀ es, (∀ e ∈ es, ¬ connectsTo ch e) →
      ∀ inv ∈ (run (step s (Event.peripheral_disconnect ch)).1 es).2,
        inv.conn_handle ≠ ch) ∧
    (∀ vh payload, s.conn_dict ch = none →
      step s (Event.notify ch vh payload) = (s, [])) ∧
    (∀ vh payload conn, s.conn_dict ch = some conn → conn.handles vh = none →
      step s (Event.notify ch vh payload) = (s, [])) ∧
    (∀ vh payload conn entry, s.conn_dict ch = some conn →
      conn.handles vh = some entry → entry.notify_callback = none →
      step s (Event.notify ch vh payload) = (s, [])) := by
  have hgone : Gone ch (step s (Event.peripheral_disconnect ch)).1 := by
    constructor
    · by_cases hc : s.conn_handle = some ch <;> simp [step, hc, upd]
    · by_cases hc : s.conn_handle = some ch <;> simp [step, hc]
  refine ⟨⟨hgone.1, ?_, by simp [step]⟩, ?_, ?_, ?_, ?_⟩
  · intro hc
    simp [step, hc]
  · intro es hne inv hinv
    exact (run_preserves_Gone ch es _ hgone hne).2 inv hinv
  · intro vh payload hd
    simp [step, hd]
  · intro vh payload conn hd hh
    simp [step, hd, hh]
  · intro vh payload conn entry hd hh hcb
    simp [step, hd, hh, hcb]

/-- Witness for C5: a notify on a handle with no dictionary entry is
dropped with no state change. -/
theorem C5_disconnect_clears_and_drops_witness :
    step (ScanState.mk (fun _ => none) (some 1) none none (fun _ => false))
        (Event.notify 1 5 [2]) =
      (ScanState.mk (fun _ => none) (some 1) none none (fun _ => false), []) :=
  (C5_disconnect_clears_and_drops
    (ScanState.mk (fun _ => none) (some 1) none none (fun _ => false)) 1).2.2.1 5 [2] rfl

/-- Claim C10: register_notify succeeds, overwriting any prior binding for
the same (connection handle, value handle) key, exactly when the handle has
a dictionary entry whose handles dictionary holds the value handle (as
recorded by the characteristic discovery handler); for any other pair it
raises KeyError and no binding is created. -/
theorem C10_register_notify (s : ScanState) (ch vh cb : Nat) :
    ((∃ s1, register_notify s ch vh cb = Except.ok s1) ↔
      ∃ conn, s.conn_dict ch = some conn ∧ (conn.handles vh).isSome = true) ∧
    (∀ conn, s.conn_dict ch = some conn → ∀ entry, conn.handles vh = some entry →
      ∃ s1 conn1, register_notify s ch vh cb = .ok s1 ∧
        s1.conn_dict ch = some conn1 ∧
        conn1.handles vh = some { notify_callback := some cb } ∧
        (∀ ch2, ch2 ≠ ch → s1.conn_dict ch2 = s.conn_dict ch2) ∧
        (∀ vh2, vh2 ≠ vh → conn1.handles vh2 = conn.handles vh2)) ∧
    ((s.conn_dict ch = none ∨
        (∃ conn, s.conn_dict ch = some conn ∧ conn.handles vh = none)) →
      register_notify s ch vh cb = .error ()) ∧
    (s.conn_handle = some ch → ∀ conn, s.conn_dict ch = some conn → ∀ dh,
      ∃ conn1, (step s (Event.char_result ch dh vh)).1.conn_dict ch = some conn1 ∧
        (conn1.handles vh).isSome = true) := by
  refine ⟨⟨?_, ?_⟩, ?_, ?_, ?_⟩
  · rintro ⟨s1, hok⟩
    cases hcd : s.conn_dict ch with
    | none => simp [register_notify, hcd] at hok
    | some conn =>
      cases hhe : conn.handles vh with
      | none => simp [register_notify, hcd, hhe] at hok
      | some entry => exact ⟨conn, rfl, by simp [hhe]⟩
  · rintro ⟨conn, hcd, hs⟩
    cases hhe : conn.handles vh with
    | none => simp [hhe] at hs
    | some entry =>
      exact ⟨{ s with conn_dict := upd s.conn_dict ch (some { conn with
        handles := upd conn.handles vh (some { notify_callback := some cb }) }) },
        by simp [register_notify, hcd, hhe]⟩
  · intro conn hcd entry hhe
    refine ⟨{ s with conn_dict := upd s.conn_dict ch (some { conn with
        handles := upd conn.handles vh (some { notify_callback := some cb }) }) },
      { conn with handles := upd conn.handles vh (some { notify_callback := some cb }) },
      ?_, ?_, ?_, ?_, ?_⟩
    · simp [register_notify, hcd, hhe]
    · simp [upd]
    · simp [upd]
    · intro ch2 hne
      simp [upd, hne]
    · intro vh2 hne
      simp [upd, hne]
  · rintro (hcd | ⟨conn, hcd, hhe⟩)
    · simp [register_notify, hcd]
    · simp [register_notify, hcd, hhe]
  · intro hc conn hcd dh
    refine ⟨{ conn with handles := upd (upd conn.handles dh
        (some { notify_callback := none })) vh (some { notify_callback := none }) }, ?_, ?_⟩
    · simp [step, hc, hcd, upd]
    · simp [upd]

/-- Witness for C10: registering callback 7 on the recorded pair (1, 5)
of a concrete state succeeds and stores the binding. -/
theorem C10_register_notify_witness :
    ∃ s1 conn1,
      register_notify (ScanState.mk
          (fun ch => if ch = 1 then some (Connection.mk 1
            (fun vh => if vh = 5 then some (HandleEntry.mk none) else none)) else none)
          (some 1) none none (fun _ => false)) 1 5 7 = .ok s1 ∧
      s1.conn_dict 1 = some conn1 ∧
      conn1.handles 5 = some { notify_callback := some 7 } ∧
      (∀ ch2, ch2 ≠ 1 → s1.conn_dict ch2 = (ScanState.mk
          (fun ch => if ch = 1 then some (Connection.mk 1
            (fun vh => if vh = 5 then some (HandleEntry.mk none) else none)) else none)
          (some 1) none none (fun _ => false)).conn_dict ch2) ∧
      (∀ vh2, vh2 ≠ 5 → conn1.handles vh2 = (Connection.mk 1
          (fun vh => if vh = 5 then some (HandleEntry.mk none) else none)).handles vh2) :=
  (C10_register_notify _ 1 5 7).2.1 _ rfl _ rfl

lemma write_poll_loop_never (schedule : Nat → Option Nat)
    (hs : ∀ k, schedule k = none) (counter : Nat) (hc : counter ≤ 10) :
    write_poll_loop schedule { write_callback := true, result := none } counter =
      ({ write_callback := true, result := none }, 10) := by
  rw [write_poll_loop]
  by_cases hlt : counter < 10
  · simp only [hs counter]
    have := write_poll_loop_never schedule hs (counter + 1) (by omega)
    simpa [hlt] using this
  · have : counter = 10 := by omega
    simp [this]
termination_by 10 - counter
decreasing_by omega

lemma write_poll_loop_counter (schedule : Nat → Option Nat) (s : WriteState)
    (counter : Nat) :
    (write_poll_loop schedule s counter).2 ≤ max counter 10 := by
  rw [write_poll_loop]
  by_cases hb : s.write_callback = true ∧ counter < 10
  · have := write_poll_loop_counter schedule
      (match schedule counter with
        | some status => write_done_irq s status
        | none => s) (counter + 1)
    simp only [hb, and_self, if_pos]
    omega
  · simp only [hb, if_neg, not_false_eq_true]
    omega
termination_by 10 - counter
decreasing_by omega

/-- Counterexample to claim C7 as stated: when no write-done event ever
arrives, gattc_write_sync in mode 1 terminates and returns python None,
but the stored write callback is still registered afterwards — the code
never clears it on retry exhaustion, while the claim says it does. -/
theorem C7_counterexample :
    gattc_write_sync (fun _ => none) 1 =
      (none, { write_callback := true, result := none }) := by
  have h := write_poll_loop_never (fun _ => none) (fun _ => rfl) 0 (by omega)
  simp [gattc_write_sync, h]

/-- Claim C7 as amended: the wrapper polls at most 10 times with one sleep
per attempt; when no write-done event arrives within the budget it
terminates (rather than hanging) and returns python None, but the stored
write callback is left registered, not cleared; when a matching write-done
fires during sleep k < 10 the loop stops with the callback cleared and the
status as result. -/
theorem C7_write_sync_bounded (schedule : Nat → Option Nat) :
    ((gattc_write_sync schedule 1).2 =
      (write_poll_loop schedule { write_callback := true, result := none } 0).1 ∧
      (write_poll_loop schedule { write_callback := true, result := none } 0).2 ≤ 10) ∧
    ((∀ k, schedule k = none) →
      gattc_write_sync schedule 1 =
        (none, { write_callback := true, result := none })) ∧
    (∀ k status, k < 10 → schedule k = some status → (∀ j, j < k → schedule j = none) →
      gattc_write_sync schedule 1 = (some status, { write_callback := false, result := some status })) := by
  refine ⟨⟨by simp [gattc_write_sync], ?_⟩, ?_, ?_⟩
  · simpa using write_poll_loop_counter schedule { write_callback := true, result := none } 0
  · intro hs
    have h := write_poll_loop_never schedule hs 0 (by omega)
    simp [gattc_write_sync, h]
  · intro k status hk hsk hbefore
    have key : ∀ n c : Nat, k - c = n → c ≤ k →
        write_poll_loop schedule { write_callback := true, result := none } c =
          ({ write_callback := false, result := some status }, k + 1) := by
      intro n
      induction n with
      | zero =>
        intro c hn hck
        have hck1 : c = k := by omega
        subst hck1
        rw [write_poll_loop]
        simp only [hsk, write_done_irq]
        rw [write_poll_loop]
        simp [hk]
      | succ n ih =>
        intro c hn hck
        have hlt : c < k := by omega
        rw [write_poll_loop]
        simp only [hbefore c hlt]
        have := ih (c + 1) (by omega) (by omega)
        simpa [show c < 10 by omega] using this
    have h0 := key k 0 (by omega) (by omega)
    simp [gattc_write_sync, h0]

/-- Witness for C7 amended: the all-silent schedule exhausts the budget,
returns python None and leaves the callback registered. -/
theorem C7_write_sync_bounded_witness :
    gattc_write_sync (fun _ => none) 1 =
      (none, { write_callback := true, result := none }) :=
  (C7_write_sync_bounded (fun _ => none)).2.1 (fun _ => rfl)

end Central

namespace Scanner

/-- Counterexample to claim C8 as stated: from a state in which a scan is
still active (busy flag set, completion callback 0 stored), calling scan
again issues the gap-scan command and installs the new callback 1 — the
second scan is silently started; the python method has no busy check and
returns None, so no Busy error is reported to the caller. -/
theorem C8_counterexample :
    scan (ScannerState.mk [] none none none false (some 0) true)
        (ScanArgs.mk none none none false (some 1)) =
      (ScannerState.mk [] none none none false (some 1) true,
        [Cmd.gapScan 2000 30000 30000]) := by decide

/-- Claim C8 as amended: scan performs no busy check: it always issues the
gap-scan command and installs the new filter and callback, even while a
previous scan is active, and reports no error; the caller must poll
is_busy(), which is set at scan start, preserved by scan results, and
cleared only by complete_scan, in the same step in which the completion
callback is invoked. -/
theorem C8_busy_flag (s : ScannerState) (a : ScanArgs) :
    ((scan s a).2 = [Cmd.gapScan 2000 30000 30000] ∧
      (scan s a).1.is_busy = true ∧
      (scan s a).1.scan_callback = a.callback) ∧
    (∀ e, ((irq_scan_result s e).1).is_busy = s.is_busy) ∧
    ((complete_scan s).1.is_busy = false) ∧
    (∀ cb, s.scan_callback = some cb →
      (complete_scan s).2 = [{ cb := cb, devices := s.device_dict.map Prod.snd }] ∧
      (complete_scan s).1.scan_callback = none) := by
  refine ⟨⟨rfl, rfl, rfl⟩, ?_, ?_, ?_⟩
  · intro e
    by_cases hm : scanMatches s e = true <;> simp [irq_scan_result, hm]
  · cases hcb : s.scan_callback <;> simp [complete_scan, hcb]
  · intro cb hcb
    simp [complete_scan, hcb]

/-- Witness for C8 amended: completing a scan with stored callback 4
invokes it with the recorded devices and clears the reference. -/
theorem C8_busy_flag_witness :
    (complete_scan (ScannerState.mk [] none none none false (some 4) true)).2 =
      [{ cb := 4, devices := [] }] ∧
    (complete_scan (ScannerState.mk [] none none none false (some 4) true)).1.scan_callback =
      none :=
  (C8_busy_flag (ScannerState.mk [] none none none false (some 4) true)
    (ScanArgs.mk none none none false none)).2.2.2 4 rfl

lemma scanMatches_irq (s : ScannerState) (e e1 : AdvEvent) :
    scanMatches (irq_scan_result s e).1 e1 = scanMatches s e1 := by
  unfold irq_scan_result
  split <;> rfl

lemma runStop_first_match (es : List AdvEvent) :
    ∀ s : ScannerState, s.scan_list_all = false → s.device_dict = [] →
    (runStop s es).device_dict =
      (match es.find? (fun e => scanMatches s e) with
        | none => []
        | some e => [(advKey e, advRecord e)]) := by
  induction es with
  | nil =>
    intro s _ hd
    simpa [runStop, List.find?] using hd
  | cons e rest ih =>
    intro s hla hd
    by_cases hm : scanMatches s e = true
    · rw [runStop]
      rw [List.find?_cons_of_pos _ hm]
      simp [irq_scan_result, hm, hla, hd, pyDictSet]
    · rw [runStop]
      rw [List.find?_cons_of_neg _ (by simp [hm])]
      have heq : irq_scan_result s e = (s, false) := by simp [irq_scan_result, hm]
      rw [heq]
      exact ih s hla hd

lemma runCollect_head_stable (es : List AdvEvent) :
    ∀ (s : ScannerState) (k0 : Nat × List Nat) (r0 : DeviceRec),
    s.device_dict.head? = some (k0, r0) →
    (∀ e ∈ es, scanMatches s e = true → advKey e ≠ k0 ∨ advRecord e = r0) →
    (runCollect s es).device_dict.head? = some (k0, r0) := by
  induction es with
  | nil =>
    intro s k0 r0 hd _
    simpa [runCollect] using hd
  | cons e rest ih =>
    intro s k0 r0 hd hkeys
    rw [runCollect]
    apply ih
    · by_cases hm : scanMatches s e = true
      · obtain ⟨tail, hds⟩ : ∃ tail, s.device_dict = (k0, r0) :: tail := by
          cases hdd : s.device_dict with
          | nil => rw [hdd] at hd; simp at hd
          | cons d0 tail =>
            rw [hdd] at hd
            simp only [List.head?_cons, Option.some_inj] at hd
            exact ⟨tail, by rw [hd]⟩
        rcases hkeys e (by simp) hm with hne | hrec
        · simp [irq_scan_result, hm, hds, pyDictSet, Ne.symm hne]
        · by_cases hk : advKey e = k0
          · simp [irq_scan_result, hm, hds, pyDictSet, hk, hrec]
          · simp [irq_scan_result, hm, hds, pyDictSet, Ne.symm hk]
      · simpa [irq_scan_result, hm] using hd
    · intro e1 he1 hm1
      rw [scanMatches_irq] at hm1
      exact hkeys e1 (by simp [he1]) hm1

lemma runCollect_first (es : List AdvEvent) :
    ∀ s : ScannerState, s.device_dict = [] →
    ∀ e0, es.find? (fun e => scanMatches s e) = some e0 →
    (∀ e ∈ es, scanMatches s e = true →
      advKey e ≠ advKey e0 ∨ advRecord e = advRecord e0) →
    (runCollect s es).device_dict.head? = some (advKey e0, advRecord e0) := by
  induction es with
  | nil =>
    intro s _ e0 hfind
    simp [List.find?] at hfind
  | cons e rest ih =>
    intro s hd e0 hfind hkeys
    by_cases hm : scanMatches s e = true
    · have he0 : e = e0 := by
        rw [List.find?_cons_of_pos _ hm] at hfind
        simpa using hfind
      subst he0
      rw [runCollect]
      apply runCollect_head_stable
      · simp [irq_scan_result, hm, hd, pyDictSet]
      · intro e1 he1 hm1
        rw [scanMatches_irq] at hm1
        exact hkeys e1 (by simp [he1]) hm1
    · rw [runCollect]
      have heq : irq_scan_result s e = (s, false) := by simp [irq_scan_result, hm]
      rw [heq]
      have hfind1 : rest.find? (fun e1 => scanMatches s e1) = some e0 := by
        rwa [List.find?_cons_of_neg _ (by simp [hm])] at hfind
      exact ih s hd e0 hfind1 (fun e1 he1 hm1 => hkeys e1 (by simp [he1]) hm1)

/-- Counterexample to claim C9 as stated: the same device advertises twice
with different names, both advertisements pass the (empty) filter.  The
stop-on-first-match run records the first advertisement (name byte 88);
the collect-all run over the same events overwrites the entry, so its
first recorded match carries name byte 89 — a different device record. -/
theorem C9_counterexample :
    ((runStop (ScannerState.mk [] none none none false none true)
        [AdvEvent.mk 0 [1] 0 [] (some [88]),
         AdvEvent.mk 0 [1] 0 [] (some [89])]).device_dict.map Prod.snd).head? =
      some (DeviceRec.mk 0 [1] 0 [88]) ∧
    ((runCollect (ScannerState.mk [] none none none true none true)
        [AdvEvent.mk 0 [1] 0 [] (some [88]),
         AdvEvent.mk 0 [1] 0 [] (some [89])]).device_dict.map Prod.snd).head? =
      some (DeviceRec.mk 0 [1] 0 [89]) ∧
    some (DeviceRec.mk 0 [1] 0 [88]) ≠ some (DeviceRec.mk 0 [1] 0 [89]) := by decide

/-- Claim C9 as amended: the filtering and recording logic is identical in
both modes — the dictionary update does not depend on list_all, which only
decides the stop request; the stop-on-first-match run records exactly the
record of the first matching event; the collect-all run keeps that event
key as its first entry, and its first recorded match coincides with the
stop-mode one whenever no later matching event re-records the first key
with different data. -/
theorem C9_stop_collect_equiv (s : ScannerState) (es : List AdvEvent) :
    (∀ e b, ((irq_scan_result { s with scan_list_all := b } e).1).device_dict =
      ((irq_scan_result s e).1).device_dict) ∧
    (∀ e, (irq_scan_result s e).2 = (scanMatches s e && !s.scan_list_all)) ∧
    (s.scan_list_all = false → s.device_dict = [] →
      (runStop s es).device_dict =
        (match es.find? (fun e => scanMatches s e) with
          | none => []
          | some e => [(advKey e, advRecord e)])) ∧
    (s.device_dict = [] → ∀ e0, es.find? (fun e => scanMatches s e) = some e0 →
      (∀ e ∈ es, scanMatches s e = true →
        advKey e ≠ advKey e0 ∨ advRecord e = advRecord e0) →
      (runCollect s es).device_dict.head? = some (advKey e0, advRecord e0) ∧
      (s.scan_list_all = false →
        (runStop s es).device_dict.head? = some (advKey e0, advRecord e0))) := by
  refine ⟨?_, ?_, ?_, ?_⟩
  · intro e b
    have hms : scanMatches { s with scan_list_all := b } e = scanMatches s e := rfl
    by_cases hm : scanMatches s e = true <;> simp [irq_scan_result, hms, hm]
  · intro e
    by_cases hm : scanMatches s e = true <;> simp [irq_scan_result, hm]
  · intro hla hd
    exact runStop_first_match es s hla hd
  · intro hd e0 hfind hkeys
    refine ⟨runCollect_first es s hd e0 hfind hkeys, ?_⟩
    intro hla
    rw [runStop_first_match es s hla hd, hfind]
    rfl

/-- Witness for C9 amended: a single matching advertisement is recorded by
the stop-mode run exactly as the record of the first matching event. -/
theorem C9_stop_collect_equiv_witness :
    (runStop (ScannerState.mk [] none none none false none true)
      [AdvEvent.mk 0 [1] 0 [] (some [88])]).device_dict =
      [((0, [1]), DeviceRec.mk 0 [1] 0 [88])] := by
  have h := (C9_stop_collect_equiv (ScannerState.mk [] none none none false none true)
    [AdvEvent.mk 0 [1] 0 [] (some [88])]).2.2.1 rfl rfl
  rw [h]
  rfl

end Scanner

namespace HrmC

/-- Counterexample to claim C6 as stated: in the heart-rate central, a
scan-done after a timeout (no address recorded) invokes the stored
callback with the not-found triple but leaves the reference set, so a
repeated scan-done event invokes the callback a second time — it is not
invoked exactly once and is not cleared before invocation. -/
theorem C6_counterexample :
    (irq_scan_done (ScanState.mk (some 7) none none [])).2 =
      [(7, (none, none, none))] ∧
    (irq_scan_done (irq_scan_done (ScanState.mk (some 7) none none [])).1).2 =
      [(7, (none, none, none))] := ⟨rfl, rfl⟩

end HrmC

/-- Claim C6 as amended: on scan-done the completion callback is invoked
with the device list (ble_central), the found address triple, or the
not-found triple; in BLEScanner complete_scan clears the reference in the
same handling step (right after the call) and the splitter clears it right
before the call, so in both a repeated scan-done event cannot invoke the
callback again; in the heart-rate central the reference is cleared only on
the found path, so after a timeout a repeated scan-done event invokes the
callback again. -/
theorem C6_scan_done_once (s1 : Scanner.ScannerState) (s2 : Splitter.ScanState)
    (s3 : HrmC.ScanState) :
    ((∀ cb, s1.scan_callback = some cb →
      (Scanner.complete_scan s1).2 =
        [{ cb := cb, devices := s1.device_dict.map Prod.snd }] ∧
      (Scanner.complete_scan s1).1.scan_callback = none) ∧
     (Scanner.complete_scan (Scanner.complete_scan s1).1).2 = []) ∧
    ((∀ cb, s2.scan_callback = some cb →
      (Splitter.irq_scan_done s2).1.scan_callback = none ∧
      (Splitter.irq_scan_done s2).2 =
        [(cb, if Splitter.addrTruthy s2.addr
          then (s2.addr_type, s2.addr, some s2.name)
          else (none, none, none))]) ∧
     (Splitter.irq_scan_done (Splitter.irq_scan_done s2).1).2 = []) ∧
    (∀ cb, s3.scan_callback = some cb → Splitter.addrTruthy s3.addr = true →
      (HrmC.irq_scan_done s3).1.scan_callback = none ∧
      (HrmC.irq_scan_done s3).2 = [(cb, (s3.addr_type, s3.addr, some s3.name))] ∧
      (HrmC.irq_scan_done (HrmC.irq_scan_done s3).1).2 = []) ∧
    (∀ cb, s3.scan_callback = some cb → Splitter.addrTruthy s3.addr = false →
      (HrmC.irq_scan_done s3).1 = s3 ∧
      (HrmC.irq_scan_done s3).2 = [(cb, (none, none, none))]) := by
  refine ⟨⟨?_, ?_⟩, ⟨?_, ?_⟩, ?_, ?_⟩
  · intro cb hcb
    simp [Scanner.complete_scan, hcb]
  · cases hcb : s1.scan_callback <;> simp [Scanner.complete_scan, hcb]
  · intro cb hcb
    by_cases ha : Splitter.addrTruthy s2.addr = true <;>
      simp [Splitter.irq_scan_done, hcb, ha]
  · cases hcb : s2.scan_callback with
    | none => simp [Splitter.irq_scan_done, hcb]
    | some cb =>
      by_cases ha : Splitter.addrTruthy s2.addr = true <;>
        simp [Splitter.irq_scan_done, hcb, ha]
  · intro cb hcb ha
    refine ⟨?_, ?_, ?_⟩
    · simp [HrmC.irq_scan_done, hcb, ha]
    · simp [HrmC.irq_scan_done, hcb, ha]
    · simp [HrmC.irq_scan_done, hcb, ha]
  · intro cb hcb ha
    constructor
    · simp [HrmC.irq_scan_done, hcb, ha]
    · simp [HrmC.irq_scan_done, hcb, ha]

/-- Witness for C6 amended: a splitter scan-done with a found address
clears the reference before invoking the callback with the found triple. -/
theorem C6_scan_done_once_witness :
    (Splitter.irq_scan_done (Splitter.ScanState.mk (some 3) (some 1) (some [2]) [65])).1.scan_callback =
      none ∧
    (Splitter.irq_scan_done (Splitter.ScanState.mk (some 3) (some 1) (some [2]) [65])).2 =
      [(3, (some 1, some [2], some [65]))] := by
  have h := (C6_scan_done_once (Scanner.ScannerState.mk [] none none none false none false)
    (Splitter.ScanState.mk (some 3) (some 1) (some [2]) [65])
    (HrmC.ScanState.mk none none none [])).2.1.1 3 rfl
  simpa [Splitter.addrTruthy] using h
